import Mathlib

/-!
Shallow embedding of the `capture-rust` client SDK (`src/lib.rs`): a client
that assembles signed URLs for the capture.page web-capture service.  Pure
string/query construction and an MD5-based signing token are modelled
directly; the HTTP transport (`reqwest::Client`) is modelled as an opaque
handle recording how it was obtained, and `std::time::Duration` as a `Nat`.
Strings are Lean `String`s; where the code operates on bytes (UTF-8
percent-encoding, MD5) we encode explicitly via `strBytes`.
-/

namespace CaptureRust

/-- Finite/non-finite shape of an `f64`.  A finite double is carried together
with its literal decimal rendering (the string Rust's float `Display` would
produce); the non-finite values are the ones `serde_json::Number::from_f64`
rejects. -/
inductive F64 where
  | finite (repr : String)
  | nan
  | posInf
  | negInf
deriving DecidableEq, Repr

/-- `F64.isFinite`: true exactly on the `finite` case (mirrors
`f64::is_finite`). -/
def F64.isFinite : F64 → Bool
  | .finite _ => true
  | _ => false

/-- `serde_json::Number` as used by this crate: integers (from `u32::into`)
and finite doubles (from `serde_json::Number::from_f64`), each carried with
enough to reproduce `Number::to_string`. -/
inductive JsonNumber where
  | int (n : Int)
  | float (repr : String)
deriving DecidableEq, Repr

/-- `serde_json::Number::to_string`: decimal rendering. -/
def JsonNumber.toString : JsonNumber → String
  | .int n => ToString.toString n
  | .float r => r

/-- `serde_json::Number::from_f64`: `Some` exactly on finite doubles. -/
def numberFromF64 : F64 → Option JsonNumber
  | .finite r => some (.float r)
  | .nan => none
  | .posInf => none
  | .negInf => none

/-- `serde_json::Value` restricted to the shapes this crate distinguishes:
the three scalar cases handled by `to_query_string`, and `other` for every
non-scalar value (null, arrays, objects), which that function skips. -/
inductive Value where
  | str (s : String)
  | num (n : JsonNumber)
  | bool (b : Bool)
  | other
deriving DecidableEq, Repr

/-- `RequestOptions = HashMap<String, serde_json::Value>`, modelled as an
association list; `insertOpt` gives it map semantics (insert replaces). -/
abbrev RequestOptions := List (String × Value)

/-- `HashMap::insert`: replace the value at `k` if present, else add the
entry. -/
def insertOpt : RequestOptions → String → Value → RequestOptions
  | [], k, v => [(k, v)]
  | (k1, v1) :: t, k, v =>
    if k1 = k then (k, v) :: t else (k1, v1) :: insertOpt t k v

/-- `HashMap::get`: first-match lookup (keys are unique under `insertOpt`). -/
def lookupOpt (k : String) : RequestOptions → Option Value
  | [] => none
  | (k', v) :: t => if k' = k then some v else lookupOpt k t

/-- UTF-8 encoding of a single character (byte values as `Nat`). -/
def charBytes (c : Char) : List Nat :=
  let n := c.toNat
  if n < 128 then [n]
  else if n < 2048 then [192 + n / 64, 128 + n % 64]
  else if n < 65536 then [224 + n / 4096, 128 + (n / 64) % 64, 128 + n % 64]
  else [240 + n / 262144, 128 + (n / 4096) % 64, 128 + (n / 64) % 64, 128 + n % 64]

/-- UTF-8 byte sequence of a string. -/
def strBytes (s : String) : List Nat := s.data.flatMap charBytes

/-- RFC 3986 unreserved bytes: ASCII alphanumerics and `-`, `_`, `.`, `~`
(the set `urlencoding::encode` leaves unescaped). -/
def isUnreserved (b : Nat) : Bool :=
  (65 ≤ b && b ≤ 90) || (97 ≤ b && b ≤ 122) || (48 ≤ b && b ≤ 57) ||
    b == 45 || b == 95 || b == 46 || b == 126

/-- Uppercase hexadecimal digit, as `urlencoding` emits in escapes. -/
def hexUpper (n : Nat) : Char :=
  if n < 10 then Char.ofNat (48 + n) else Char.ofNat (55 + n)

/-- Percent-encode one byte: unreserved bytes pass through, everything else
(including space, which becomes `%20`, never `+`) is `%XX`-escaped. -/
def encodeByte (b : Nat) : List Char :=
  if isUnreserved b then [Char.ofNat b]
  else ['%', hexUpper (b / 16), hexUpper (b % 16)]

/-- `urlencoding::encode`: percent-encode the UTF-8 bytes of a string. -/
def urlencode (s : String) : String := ⟨(strBytes s).flatMap encodeByte⟩

/-- The scalar stringification inside `to_query_string`'s match: strings pass
through, numbers via `Number::to_string`, booleans via `bool::to_string`
(`"true"`/`"false"`); `none` for the `_ => continue` arm. -/
def valueToString : Value → Option String
  | .str s => some s
  | .num n => some n.toString
  | .bool b => some (if b then "true" else "false")
  | .other => none

/-- `Capture::to_query_string`: for each entry stringify scalars, skip
non-scalars and empty stringifications, percent-encode key and value, join
with `&`. -/
def to_query_string (options : RequestOptions) : String :=
  String.intercalate "&" (options.filterMap (fun p =>
    match valueToString p.2 with
    | none => none
    | some v => if v = "" then none else some (urlencode p.1 ++ "=" ++ urlencode v)))

/- ### MD5 (the `md5` crate's `compute`, written out) -/

/-- Truncate to a 32-bit word. -/
def w32 (n : Nat) : Nat := n % 4294967296

/-- 32-bit modular addition. -/
def wadd (a b : Nat) : Nat := w32 (a + b)

/-- 32-bit bitwise complement (argument below `2^32`). -/
def wnot (a : Nat) : Nat := 4294967295 - a

/-- 32-bit left rotation. -/
def rotl (x c : Nat) : Nat := Nat.lor (w32 (x <<< c)) (x >>> (32 - c))

/-- The 64 MD5 sine-derived constants. -/
def md5K : List Nat :=
  [0xd76aa478, 0xe8c7b756, 0x242070db, 0xc1bdceee,
   0xf57c0faf, 0x4787c62a, 0xa8304613, 0xfd469501,
   0x698098d8, 0x8b44f7af, 0xffff5bb1, 0x895cd7be,
   0x6b901122, 0xfd987193, 0xa679438e, 0x49b40821,
   0xf61e2562, 0xc040b340, 0x265e5a51, 0xe9b6c7aa,
   0xd62f105d, 0x02441453, 0xd8a1e681, 0xe7d3fbc8,
   0x21e1cde6, 0xc33707d6, 0xf4d50d87, 0x455a14ed,
   0xa9e3e905, 0xfcefa3f8, 0x676f02d9, 0x8d2a4c8a,
   0xfffa3942, 0x8771f681, 0x6d9d6122, 0xfde5380c,
   0xa4beea44, 0x4bdecfa9, 0xf6bb4b60, 0xbebfbc70,
   0x289b7ec6, 0xeaa127fa, 0xd4ef3085, 0x04881d05,
   0xd9d4d039, 0xe6db99e5, 0x1fa27cf8, 0xc4ac5665,
   0xf4292244, 0x432aff97, 0xab9423a7, 0xfc93a039,
   0x655b59c3, 0x8f0ccc92, 0xffeff47d, 0x85845dd1,
   0x6fa87e4f, 0xfe2ce6e0, 0xa3014314, 0x4e0811a1,
   0xf7537e82, 0xbd3af235, 0x2ad7d2bb, 0xeb86d391]

/-- The 64 MD5 per-round rotation amounts. -/
def md5S : List Nat :=
  [7, 12, 17, 22, 7, 12, 17, 22, 7, 12, 17, 22, 7, 12, 17, 22,
   5, 9, 14, 20, 5, 9, 14, 20, 5, 9, 14, 20, 5, 9, 14, 20,
   4, 11, 16, 23, 4, 11, 16, 23, 4, 11, 16, 23, 4, 11, 16, 23,
   6, 10, 15, 21, 6, 10, 15, 21, 6, 10, 15, 21, 6, 10, 15, 21]

/-- MD5 round nonlinear function, selected by round index. -/
def md5F (i b c d : Nat) : Nat :=
  if i < 16 then Nat.lor (Nat.land b c) (Nat.land (wnot b) d)
  else if i < 32 then Nat.lor (Nat.land d b) (Nat.land (wnot d) c)
  else if i < 48 then Nat.xor b (Nat.xor c d)
  else Nat.xor c (Nat.lor b (wnot d))

/-- MD5 message-word schedule. -/
def md5G (i : Nat) : Nat :=
  if i < 16 then i
  else if i < 32 then (5 * i + 1) % 16
  else if i < 48 then (3 * i + 5) % 16
  else (7 * i) % 16

/-- Little-endian decomposition of `n` into `k` bytes. -/
def leBytes : Nat → Nat → List Nat
  | 0, _ => []
  | k + 1, n => (n % 256) :: leBytes k (n / 256)

/-- Word `j` of a 64-byte chunk, little-endian. -/
def leWord (chunk : List Nat) (j : Nat) : Nat :=
  chunk.getD (4 * j) 0 + 256 * chunk.getD (4 * j + 1) 0 +
    65536 * chunk.getD (4 * j + 2) 0 + 16777216 * chunk.getD (4 * j + 3) 0

/-- One MD5 round on the running state `(a, b, c, d)`. -/
def md5Round (m : Nat → Nat) (st : Nat × Nat × Nat × Nat) (i : Nat) :
    Nat × Nat × Nat × Nat :=
  let (a, b, c, d) := st
  let f := wadd (wadd (wadd a (md5F i b c d)) (md5K.getD i 0)) (m (md5G i))
  (d, wadd b (rotl f (md5S.getD i 0)), b, c)

/-- Process one 64-byte chunk: 64 rounds, then add into the state. -/
def md5Chunk (st : Nat × Nat × Nat × Nat) (chunk : List Nat) :
    Nat × Nat × Nat × Nat :=
  let (a, b, c, d) := (List.range 64).foldl (md5Round (leWord chunk)) st
  (wadd st.1 a, wadd st.2.1 b, wadd st.2.2.1 c, wadd st.2.2.2 d)

/-- Split a byte list into 64-byte chunks. -/
def chunks64 : List Nat → List (List Nat)
  | [] => []
  | b :: t => (b :: t).take 64 :: chunks64 (t.drop 63)
termination_by l => l.length
decreasing_by simp [List.length_drop]; omega

/-- MD5 padding: `0x80`, zeros to 56 mod 64, then the bit length as a 64-bit
little-endian quantity. -/
def md5Pad (msg : List Nat) : List Nat :=
  msg ++ [128] ++ List.replicate ((119 - msg.length % 64) % 64) 0 ++
    leBytes 8 ((8 * msg.length) % 18446744073709551616)

/-- `md5::compute`: the 16-byte MD5 digest of a byte sequence. -/
def md5 (msg : List Nat) : List Nat :=
  let st := (chunks64 (md5Pad msg)).foldl md5Chunk
    (0x67452301, 0xefcdab89, 0x98badcfe, 0x10325476)
  leBytes 4 st.1 ++ leBytes 4 st.2.1 ++ leBytes 4 st.2.2.1 ++ leBytes 4 st.2.2.2

/-- Two lowercase hex digits of one byte (the `{:x}` formatting of a digest
byte). -/
def byteHex (b : Nat) : String := ⟨[Nat.digitChar (b / 16), Nat.digitChar (b % 16)]⟩

/-- `format!("{:x}", digest)`: lowercase hex of the 16 digest bytes. -/
def hexDigest (bs : List Nat) : String := String.join (bs.map byteHex)

/- ### The client -/

/-- `CaptureError` (the `reqwest`/`url` payloads are irrelevant to URL
building and dropped). -/
inductive CaptureError where
  | HttpError
  | UrlError
  | MissingCredentials
  | MissingUrl
  | InvalidUrl
deriving DecidableEq, Repr

/-- `RequestType`. -/
inductive RequestType where
  | Image
  | Pdf
  | Content
  | Metadata
  | Animated
deriving DecidableEq, Repr

/-- `RequestType::as_str`: the fixed lowercase path segment per capture
kind. -/
def RequestType.as_str : RequestType → String
  | .Image => "image"
  | .Pdf => "pdf"
  | .Content => "content"
  | .Metadata => "metadata"
  | .Animated => "animated"

/-- The `reqwest::Client` handle, abstracted to what the SDK does with it:
`built t` is a client the SDK itself constructed with
`Client::builder()[.timeout(t)].build()` (so `Client::new()` is
`built none`), while `custom i` is an opaque caller-supplied transport the
SDK never constructs.  `Duration` is a `Nat`. -/
inductive ClientT where
  | built (timeout : Option Nat)
  | custom (id : Nat)
deriving DecidableEq, Repr

/-- `CaptureOptions`. -/
structure CaptureOptions where
  use_edge : Bool := false
  timeout : Option Nat := none
  client : Option ClientT := none
deriving DecidableEq, Repr

/-- The client-construction expression shared by `Capture::new` and
`Capture::with_options`: use the caller-supplied client if any, else build
one with the configured timeout. -/
def buildClient (options : CaptureOptions) : ClientT :=
  match options.client with
  | some c => c
  | none => .built options.timeout

/-- `Capture`. -/
structure Capture where
  key : String
  secret : String
  options : CaptureOptions
  client : ClientT
deriving DecidableEq, Repr

/-- `Capture::API_URL`. -/
def API_URL : String := "https://cdn.capture.page"

/-- `Capture::EDGE_URL`. -/
def EDGE_URL : String := "https://edge.capture.page"

/-- `Capture::new`. -/
def Capture.new (key secret : String) : Capture :=
  { key, secret, options := {}, client := buildClient {} }

/-- `Capture::with_options`. -/
def Capture.with_options (key secret : String) (options : CaptureOptions) : Capture :=
  { key, secret, options, client := buildClient options }

/-- `Capture::with_edge`. -/
def Capture.with_edge (c : Capture) : Capture :=
  { c with options := { c.options with use_edge := true } }

/-- `Capture::with_timeout`: records the timeout and rebuilds the client
with it (`Client::builder().timeout(timeout).build()`), unconditionally. -/
def Capture.with_timeout (c : Capture) (timeout : Nat) : Capture :=
  { c with options := { c.options with timeout := some timeout },
           client := .built (some timeout) }

/-- `Capture::with_client`. -/
def Capture.with_client (c : Capture) (client : ClientT) : Capture :=
  { c with client, options := { c.options with client := some client } }

/-- `Capture::generate_token`: lowercase-hex MD5 of
`format!("{secret}{url}")`. -/
def generate_token (secret url : String) : String :=
  hexDigest (md5 (strBytes (secret ++ url)))

/-- The option mapping `build_url` serializes: the caller's options (or
empty), with `"url"` inserted last. -/
def mergedOptions (request_options : Option RequestOptions) (url : String) :
    RequestOptions :=
  insertOpt (request_options.getD []) "url" (.str url)

/-- `Capture::build_url`. -/
def Capture.build_url (c : Capture) (request_type : RequestType) (url : String)
    (request_options : Option RequestOptions) : Except CaptureError String :=
  if c.key = "" ∨ c.secret = "" then
    .error .MissingCredentials
  else if url = "" then
    .error .MissingUrl
  else
    let options := mergedOptions request_options url
    let query := to_query_string options
    let token := generate_token c.secret query
    let base_url := if c.options.use_edge then EDGE_URL else API_URL
    .ok (base_url ++ "/" ++ c.key ++ "/" ++ token ++ "/" ++
      request_type.as_str ++ "?" ++ query)

/-- `Capture::build_image_url`. -/
def Capture.build_image_url (c : Capture) (url : String)
    (options : Option RequestOptions) : Except CaptureError String :=
  c.build_url .Image url options

/-- `Capture::build_pdf_url`. -/
def Capture.build_pdf_url (c : Capture) (url : String)
    (options : Option RequestOptions) : Except CaptureError String :=
  c.build_url .Pdf url options

/-- `Capture::build_content_url`. -/
def Capture.build_content_url (c : Capture) (url : String)
    (options : Option RequestOptions) : Except CaptureError String :=
  c.build_url .Content url options

/-- `Capture::build_metadata_url`. -/
def Capture.build_metadata_url (c : Capture) (url : String)
    (options : Option RequestOptions) : Except CaptureError String :=
  c.build_url .Metadata url options

/-- `Capture::build_animated_url`. -/
def Capture.build_animated_url (c : Capture) (url : String)
    (options : Option RequestOptions) : Except CaptureError String :=
  c.build_url .Animated url options

/- ### Structured option sets and their conversion -/

/-- One `if let Some(x) = field { options.insert(wire, x) }` step. -/
def optInsert (m : RequestOptions) (k : String) : Option Value → RequestOptions
  | some v => insertOpt m k v
  | none => m

/-- The `additional_options` merge loop: insert every entry, overriding. -/
def mergeAdditional (m : RequestOptions) : Option RequestOptions → RequestOptions
  | some additional => additional.foldl (fun acc p => insertOpt acc p.1 p.2) m
  | none => m

/-- `ScreenshotOptions`. -/
structure ScreenshotOptions where
  vw : Option Nat := none
  vh : Option Nat := none
  scale_factor : Option F64 := none
  full : Option Bool := none
  delay : Option Nat := none
  wait_for : Option String := none
  wait_for_id : Option String := none
  dark_mode : Option Bool := none
  transparent : Option Bool := none
  selector : Option String := none
  selector_id : Option String := none
  block_cookie_banners : Option Bool := none
  block_ads : Option Bool := none
  bypass_bot_detection : Option Bool := none
  image_type : Option String := none
  best_format : Option Bool := none
  resize_width : Option Nat := none
  resize_height : Option Nat := none
  http_auth : Option String := none
  user_agent : Option String := none
  fresh : Option Bool := none
  additional_options : Option RequestOptions := none
deriving DecidableEq, Repr

/-- The fixed-field insertions of `ScreenshotOptions::to_request_options`
(everything before the `additional_options` merge), in source order: each
populated field under its wire name, floats only when `Number::from_f64`
accepts them. -/
def ScreenshotOptions.fixedOptions (o : ScreenshotOptions) : RequestOptions :=
  let m : RequestOptions := []
  let m := optInsert m "vw" (o.vw.map (fun n => .num (.int n)))
  let m := optInsert m "vh" (o.vh.map (fun n => .num (.int n)))
  let m := optInsert m "scaleFactor" ((o.scale_factor.bind numberFromF64).map .num)
  let m := optInsert m "full" (o.full.map .bool)
  let m := optInsert m "delay" (o.delay.map (fun n => .num (.int n)))
  let m := optInsert m "waitFor" (o.wait_for.map .str)
  let m := optInsert m "waitForId" (o.wait_for_id.map .str)
  let m := optInsert m "darkMode" (o.dark_mode.map .bool)
  let m := optInsert m "transparent" (o.transparent.map .bool)
  let m := optInsert m "selector" (o.selector.map .str)
  let m := optInsert m "selectorId" (o.selector_id.map .str)
  let m := optInsert m "blockCookieBanners" (o.block_cookie_banners.map .bool)
  let m := optInsert m "blockAds" (o.block_ads.map .bool)
  let m := optInsert m "bypassBotDetection" (o.bypass_bot_detection.map .bool)
  let m := optInsert m "type" (o.image_type.map .str)
  let m := optInsert m "bestFormat" (o.best_format.map .bool)
  let m := optInsert m "resizeWidth" (o.resize_width.map (fun n => .num (.int n)))
  let m := optInsert m "resizeHeight" (o.resize_height.map (fun n => .num (.int n)))
  let m := optInsert m "httpAuth" (o.http_auth.map .str)
  let m := optInsert m "userAgent" (o.user_agent.map .str)
  let m := optInsert m "fresh" (o.fresh.map .bool)
  m

/-- `ScreenshotOptions::to_request_options`: the fixed fields, then
`additional_options` merged last. -/
def ScreenshotOptions.to_request_options (o : ScreenshotOptions) : RequestOptions :=
  mergeAdditional o.fixedOptions o.additional_options

/-- `PdfOptions`. -/
structure PdfOptions where
  http_auth : Option String := none
  user_agent : Option String := none
  width : Option String := none
  height : Option String := none
  format : Option String := none
  margin_top : Option String := none
  margin_right : Option String := none
  margin_bottom : Option String := none
  margin_left : Option String := none
  scale : Option F64 := none
  landscape : Option Bool := none
  delay : Option Nat := none
  file_name : Option String := none
  s3_acl : Option String := none
  s3_redirect : Option Bool := none
  timestamp : Option Bool := none
  additional_options : Option RequestOptions := none
deriving DecidableEq, Repr

/-- The fixed-field insertions of `PdfOptions::to_request_options`, in
source order. -/
def PdfOptions.fixedOptions (o : PdfOptions) : RequestOptions :=
  let m : RequestOptions := []
  let m := optInsert m "httpAuth" (o.http_auth.map .str)
  let m := optInsert m "userAgent" (o.user_agent.map .str)
  let m := optInsert m "width" (o.width.map .str)
  let m := optInsert m "height" (o.height.map .str)
  let m := optInsert m "format" (o.format.map .str)
  let m := optInsert m "marginTop" (o.margin_top.map .str)
  let m := optInsert m "marginRight" (o.margin_right.map .str)
  let m := optInsert m "marginBottom" (o.margin_bottom.map .str)
  let m := optInsert m "marginLeft" (o.margin_left.map .str)
  let m := optInsert m "scale" ((o.scale.bind numberFromF64).map .num)
  let m := optInsert m "landscape" (o.landscape.map .bool)
  let m := optInsert m "delay" (o.delay.map (fun n => .num (.int n)))
  let m := optInsert m "fileName" (o.file_name.map .str)
  let m := optInsert m "s3Acl" (o.s3_acl.map .str)
  let m := optInsert m "s3Redirect" (o.s3_redirect.map .bool)
  let m := optInsert m "timestamp" (o.timestamp.map .bool)
  m

/-- `PdfOptions::to_request_options`: the fixed fields, then
`additional_options` merged last. -/
def PdfOptions.to_request_options (o : PdfOptions) : RequestOptions :=
  mergeAdditional o.fixedOptions o.additional_options

/-- `ContentOptions`. -/
structure ContentOptions where
  http_auth : Option String := none
  user_agent : Option String := none
  delay : Option Nat := none
  wait_for : Option String := none
  wait_for_id : Option String := none
  additional_options : Option RequestOptions := none
deriving DecidableEq, Repr

/-- The fixed-field insertions of `ContentOptions::to_request_options`, in
source order. -/
def ContentOptions.fixedOptions (o : ContentOptions) : RequestOptions :=
  let m : RequestOptions := []
  let m := optInsert m "httpAuth" (o.http_auth.map .str)
  let m := optInsert m "userAgent" (o.user_agent.map .str)
  let m := optInsert m "delay" (o.delay.map (fun n => .num (.int n)))
  let m := optInsert m "waitFor" (o.wait_for.map .str)
  let m := optInsert m "waitForId" (o.wait_for_id.map .str)
  m

/-- `ContentOptions::to_request_options`: the fixed fields, then
`additional_options` merged last. -/
def ContentOptions.to_request_options (o : ContentOptions) : RequestOptions :=
  mergeAdditional o.fixedOptions o.additional_options

/-- `MetadataOptions`. -/
structure MetadataOptions where
  additional_options : Option RequestOptions := none
deriving DecidableEq, Repr

/-- `MetadataOptions::to_request_options`. -/
def MetadataOptions.to_request_options (o : MetadataOptions) : RequestOptions :=
  mergeAdditional [] o.additional_options

/-- `Capture::build_screenshot_url`. -/
def Capture.build_screenshot_url (c : Capture) (url : String)
    (options : Option ScreenshotOptions) : Except CaptureError String :=
  c.build_url .Image url (options.map (fun o => o.to_request_options))

/-- `Capture::build_pdf_url_structured`. -/
def Capture.build_pdf_url_structured (c : Capture) (url : String)
    (options : Option PdfOptions) : Except CaptureError String :=
  c.build_url .Pdf url (options.map (fun o => o.to_request_options))

/-- `Capture::build_content_url_structured`. -/
def Capture.build_content_url_structured (c : Capture) (url : String)
    (options : Option ContentOptions) : Except CaptureError String :=
  c.build_url .Content url (options.map (fun o => o.to_request_options))

/-- `Capture::build_metadata_url_structured`. -/
def Capture.build_metadata_url_structured (c : Capture) (url : String)
    (options : Option MetadataOptions) : Except CaptureError String :=
  c.build_url .Metadata url (options.map (fun o => o.to_request_options))

/- ### Spec-side restatement of query serialization (for the refinement
claim about `to_query_string`) -/

/-- Spec-side stringification, following the spec's words: booleans as
`"true"`/`"false"`, numbers via their literal textual representation,
strings as themselves, non-scalars rejected. -/
def specStringify : Value → Option String
  | .bool true => some "true"
  | .bool false => some "false"
  | .num n => some n.toString
  | .str s => some s
  | .other => none

/-- Spec-side query serialization: stringify every entry, drop non-scalars,
drop entries whose stringified value is empty, percent-encode key and
value, join with `&`. -/
def specQuery (opts : RequestOptions) : String :=
  String.intercalate "&"
    (((opts.filterMap (fun p => (specStringify p.2).map (fun s => (p.1, s)))).filter
        (fun p => p.2 != "")).map
      (fun p => urlencode p.1 ++ "=" ++ urlencode p.2))

/- ### Lemmas about the map operations -/

theorem specStringify_eq_valueToString (v : Value) :
    specStringify v = valueToString v := by
  cases v with
  | bool b => cases b <;> rfl
  | str s => rfl
  | num n => rfl
  | other => rfl

/-- Looking up the key just inserted yields the inserted value. -/
theorem lookupOpt_insertOpt_self (m : RequestOptions) (k : String) (v : Value) :
    lookupOpt k (insertOpt m k v) = some v := by
  induction m with
  | nil => simp [insertOpt, lookupOpt]
  | cons p t ih =>
    obtain ⟨k1, v1⟩ := p
    by_cases hp : k1 = k
    · simp [insertOpt, lookupOpt, hp]
    · simp [insertOpt, lookupOpt, hp, ih]

/-- Inserting under a different key does not change a lookup. -/
theorem lookupOpt_insertOpt_ne (m : RequestOptions) (k k1 : String) (v : Value)
    (h : ¬ k1 = k) :
    lookupOpt k (insertOpt m k1 v) = lookupOpt k m := by
  induction m with
  | nil => simp [insertOpt, lookupOpt, h]
  | cons p t ih =>
    obtain ⟨k2, v2⟩ := p
    by_cases hp : k2 = k1
    · simp [insertOpt, lookupOpt, hp, h]
    · have hk1 : ¬ k = k1 := fun he => h he.symm
      by_cases hk : k2 = k
      · simp [insertOpt, lookupOpt, hp, hk, hk1]
      · simp [insertOpt, lookupOpt, hp, hk, hk1, ih]

/-- `optInsert` under a different key does not change a lookup (whether or
not the field was populated). -/
theorem lookupOpt_optInsert_ne (m : RequestOptions) (k k1 : String)
    (vo : Option Value) (h : ¬ k1 = k) :
    lookupOpt k (optInsert m k1 vo) = lookupOpt k m := by
  cases vo with
  | none => rfl
  | some v => exact lookupOpt_insertOpt_ne m k k1 v h

/-- `optInsert` of an absent field is the identity. -/
theorem optInsert_none (m : RequestOptions) (k : String) :
    optInsert m k none = m := rfl

/-- `optInsert` of a populated field is an insert. -/
theorem optInsert_some (m : RequestOptions) (k : String) (v : Value) :
    optInsert m k (some v) = insertOpt m k v := rfl

/-- Folding inserts over entries whose keys avoid `k` leaves lookups at `k`
unchanged. -/
theorem lookupOpt_foldl_insert_not_mem (l : List (String × Value)) (k : String)
    (h : k ∉ l.map Prod.fst) (m : RequestOptions) :
    lookupOpt k (l.foldl (fun acc p => insertOpt acc p.1 p.2) m) =
      lookupOpt k m := by
  induction l generalizing m with
  | nil => rfl
  | cons p t ih =>
    obtain ⟨k1, v1⟩ := p
    simp only [List.map_cons, List.mem_cons, not_or] at h
    simp only [List.foldl_cons]
    rw [ih h.2, lookupOpt_insertOpt_ne _ _ _ _ (fun he => h.1 he.symm)]

/-- Folding inserts over a duplicate-free entry list makes every one of its
entries win the final lookup. -/
theorem lookupOpt_foldl_insert_mem (l : List (String × Value)) (k : String)
    (v : Value) (hnd : (l.map Prod.fst).Nodup) (h : lookupOpt k l = some v)
    (m : RequestOptions) :
    lookupOpt k (l.foldl (fun acc p => insertOpt acc p.1 p.2) m) = some v := by
  induction l generalizing m with
  | nil => simp [lookupOpt] at h
  | cons p t ih =>
    obtain ⟨k1, v1⟩ := p
    simp only [List.map_cons, List.nodup_cons] at hnd
    simp only [List.foldl_cons]
    by_cases hp : k1 = k
    · subst hp
      simp only [lookupOpt, if_pos rfl] at h
      rw [lookupOpt_foldl_insert_not_mem t _ hnd.1, lookupOpt_insertOpt_self]
      exact h
    · rw [lookupOpt, if_neg hp] at h
      exact ih hnd.2 h _

/-- UTF-8 byte encoding distributes over string concatenation. -/
theorem strBytes_append (a b : String) :
    strBytes (a ++ b) = strBytes a ++ strBytes b := by
  simp [strBytes, String.data_append]

/- ### Claim theorems -/

/-- C1: for every client with non-empty key and secret and non-empty target
URL, `build_url` returns `Ok` of exactly
`{base_host}/{key}/{token}/{segment}?{query}`, with the key verbatim, the
fixed lowercase segment per request type, and the base host
`https://edge.capture.page` exactly when `use_edge` is set and
`https://cdn.capture.page` otherwise; each per-type builder delegates to
`build_url` with its fixed request type. -/
theorem build_url_ok_shape (c : Capture) (rt : RequestType) (url : String)
    (opts : Option RequestOptions)
    (hk : c.key ≠ "") (hs : c.secret ≠ "") (hu : url ≠ "") :
    c.build_url rt url opts =
      .ok ((if c.options.use_edge then "https://edge.capture.page"
            else "https://cdn.capture.page") ++ "/" ++ c.key ++ "/" ++
        generate_token c.secret (to_query_string (mergedOptions opts url)) ++ "/" ++
        rt.as_str ++ "?" ++ to_query_string (mergedOptions opts url)) ∧
    RequestType.Image.as_str = "image" ∧
    RequestType.Pdf.as_str = "pdf" ∧
    RequestType.Content.as_str = "content" ∧
    RequestType.Metadata.as_str = "metadata" ∧
    RequestType.Animated.as_str = "animated" ∧
    c.build_image_url url opts = c.build_url .Image url opts ∧
    c.build_pdf_url url opts = c.build_url .Pdf url opts ∧
    c.build_content_url url opts = c.build_url .Content url opts ∧
    c.build_metadata_url url opts = c.build_url .Metadata url opts ∧
    c.build_animated_url url opts = c.build_url .Animated url opts := by
  refine ⟨?_, rfl, rfl, rfl, rfl, rfl, rfl, rfl, rfl, rfl, rfl⟩
  unfold Capture.build_url
  rw [if_neg (by simp [hk, hs]), if_neg hu]
  simp [EDGE_URL, API_URL]

theorem build_url_ok_shape_witness :
    (Capture.new "test_key" "test_secret").key ≠ "" ∧
    (Capture.new "test_key" "test_secret").secret ≠ "" ∧
    ("https://example.com" : String) ≠ "" ∧
    (Capture.new "test_key" "test_secret").build_url .Image "https://example.com"
        none =
      .ok ((if (Capture.new "test_key" "test_secret").options.use_edge then
            "https://edge.capture.page" else "https://cdn.capture.page") ++ "/" ++
        (Capture.new "test_key" "test_secret").key ++ "/" ++
        generate_token (Capture.new "test_key" "test_secret").secret
          (to_query_string (mergedOptions none "https://example.com")) ++ "/" ++
        RequestType.Image.as_str ++ "?" ++
        to_query_string (mergedOptions none "https://example.com")) :=
  ⟨by decide, by decide, by decide,
    (build_url_ok_shape (Capture.new "test_key" "test_secret") .Image
      "https://example.com" none (by decide) (by decide) (by decide)).1⟩

/-- C2: on every successful `build_url` call the token path segment is the
lowercase hexadecimal MD5 digest of the byte concatenation of the secret
followed immediately by the serialized query string, with no separator. -/
theorem token_is_md5_of_secret_then_query (c : Capture) (rt : RequestType)
    (url : String) (opts : Option RequestOptions)
    (hk : c.key ≠ "") (hs : c.secret ≠ "") (hu : url ≠ "") :
    c.build_url rt url opts =
      .ok ((if c.options.use_edge then "https://edge.capture.page"
            else "https://cdn.capture.page") ++ "/" ++ c.key ++ "/" ++
        hexDigest (md5 (strBytes c.secret ++
          strBytes (to_query_string (mergedOptions opts url)))) ++ "/" ++
        rt.as_str ++ "?" ++ to_query_string (mergedOptions opts url)) := by
  unfold Capture.build_url
  rw [if_neg (by simp [hk, hs]), if_neg hu]
  simp [EDGE_URL, API_URL, generate_token, strBytes_append]

theorem token_is_md5_of_secret_then_query_witness :
    (Capture.new "test_key" "test_secret").key ≠ "" ∧
    (Capture.new "test_key" "test_secret").secret ≠ "" ∧
    ("https://example.com" : String) ≠ "" ∧
    (Capture.new "test_key" "test_secret").build_url .Pdf "https://example.com"
        none =
      .ok ((if (Capture.new "test_key" "test_secret").options.use_edge then
            "https://edge.capture.page" else "https://cdn.capture.page") ++ "/" ++
        (Capture.new "test_key" "test_secret").key ++ "/" ++
        hexDigest (md5 (strBytes (Capture.new "test_key" "test_secret").secret ++
          strBytes (to_query_string (mergedOptions none "https://example.com")))) ++
        "/" ++ RequestType.Pdf.as_str ++ "?" ++
        to_query_string (mergedOptions none "https://example.com")) :=
  ⟨by decide, by decide, by decide,
    token_is_md5_of_secret_then_query (Capture.new "test_key" "test_secret") .Pdf
      "https://example.com" none (by decide) (by decide) (by decide)⟩

/-- C4: with an empty key or an empty secret, every build operation fails
with `MissingCredentials`; the check precedes the target-URL check, so the
target URL here is arbitrary (including empty). -/
theorem empty_credentials_fail (c : Capture) (rt : RequestType) (url : String)
    (opts : Option RequestOptions) (sopts : Option ScreenshotOptions)
    (popts : Option PdfOptions) (copts : Option ContentOptions)
    (mopts : Option MetadataOptions) (h : c.key = "" ∨ c.secret = "") :
    c.build_url rt url opts = .error .MissingCredentials ∧
    c.build_image_url url opts = .error .MissingCredentials ∧
    c.build_pdf_url url opts = .error .MissingCredentials ∧
    c.build_content_url url opts = .error .MissingCredentials ∧
    c.build_metadata_url url opts = .error .MissingCredentials ∧
    c.build_animated_url url opts = .error .MissingCredentials ∧
    c.build_screenshot_url url sopts = .error .MissingCredentials ∧
    c.build_pdf_url_structured url popts = .error .MissingCredentials ∧
    c.build_content_url_structured url copts = .error .MissingCredentials ∧
    c.build_metadata_url_structured url mopts = .error .MissingCredentials := by
  have hb : ∀ (rt2 : RequestType) (o2 : Option RequestOptions),
      c.build_url rt2 url o2 = .error .MissingCredentials := by
    intro rt2 o2
    unfold Capture.build_url
    rw [if_pos h]
  exact ⟨hb rt opts, hb .Image opts, hb .Pdf opts, hb .Content opts,
    hb .Metadata opts, hb .Animated opts, hb .Image _, hb .Pdf _,
    hb .Content _, hb .Metadata _⟩

theorem empty_credentials_fail_witness :
    ((Capture.new "" "test_secret").key = "" ∨
      (Capture.new "" "test_secret").secret = "") ∧
    (Capture.new "" "test_secret").build_url .Image "" none =
      .error .MissingCredentials :=
  ⟨by decide,
    (empty_credentials_fail (Capture.new "" "test_secret") .Image "" none
      none none none none (by decide)).1⟩

/-- C5: with non-empty credentials and an empty target URL, every build
operation fails with `MissingUrl`. -/
theorem empty_url_fails (c : Capture) (rt : RequestType)
    (opts : Option RequestOptions) (sopts : Option ScreenshotOptions)
    (popts : Option PdfOptions) (copts : Option ContentOptions)
    (mopts : Option MetadataOptions) (hk : c.key ≠ "") (hs : c.secret ≠ "") :
    c.build_url rt "" opts = .error .MissingUrl ∧
    c.build_image_url "" opts = .error .MissingUrl ∧
    c.build_pdf_url "" opts = .error .MissingUrl ∧
    c.build_content_url "" opts = .error .MissingUrl ∧
    c.build_metadata_url "" opts = .error .MissingUrl ∧
    c.build_animated_url "" opts = .error .MissingUrl ∧
    c.build_screenshot_url "" sopts = .error .MissingUrl ∧
    c.build_pdf_url_structured "" popts = .error .MissingUrl ∧
    c.build_content_url_structured "" copts = .error .MissingUrl ∧
    c.build_metadata_url_structured "" mopts = .error .MissingUrl := by
  have hb : ∀ (rt2 : RequestType) (o2 : Option RequestOptions),
      c.build_url rt2 "" o2 = .error .MissingUrl := by
    intro rt2 o2
    unfold Capture.build_url
    rw [if_neg (by simp [hk, hs]), if_pos rfl]
  exact ⟨hb rt opts, hb .Image opts, hb .Pdf opts, hb .Content opts,
    hb .Metadata opts, hb .Animated opts, hb .Image _, hb .Pdf _,
    hb .Content _, hb .Metadata _⟩

theorem empty_url_fails_witness :
    (Capture.new "test_key" "test_secret").key ≠ "" ∧
    (Capture.new "test_key" "test_secret").secret ≠ "" ∧
    (Capture.new "test_key" "test_secret").build_url .Image "" none =
      .error .MissingUrl :=
  ⟨by decide, by decide,
    (empty_url_fails (Capture.new "test_key" "test_secret") .Image none
      none none none none (by decide) (by decide)).1⟩

/-- C6: the `"url"` entry of the option mapping that `build_url` serializes
is always the literal target URL argument — it is inserted after all option
merging, so it wins even when the caller-supplied options themselves contain
a `"url"` key; concretely, a caller-supplied
`("url", "https://attacker.example")` is overridden in the serialized
query. -/
theorem literal_url_always_wins :
    (∀ (opts : Option RequestOptions) (url : String),
      lookupOpt "url" (mergedOptions opts url) = some (.str url)) ∧
    to_query_string (mergedOptions
        (some [("url", .str "https://attacker.example")]) "https://example.com") =
      "url=https%3A%2F%2Fexample.com" := by
  constructor
  · intro opts url
    exact lookupOpt_insertOpt_self _ _ _
  · decide

/-- C7 counterexample: a custom transport is explicitly supplied via
`with_client`, yet a subsequent `with_timeout` replaces it with a freshly
built client — the custom transport is not kept. -/
theorem with_timeout_discards_custom_cex :
    ((Capture.new "k" "s").with_client (.custom 7)).options.client =
      some (.custom 7) ∧
    (((Capture.new "k" "s").with_client (.custom 7)).with_timeout 5).client =
      .built (some 5) ∧
    ClientT.built (some 5) ≠ ClientT.custom 7 :=
  ⟨rfl, rfl, by decide⟩

/-- C7 (amended): `with_timeout` sets the timeout option and always rebuilds
the underlying HTTP transport with the new timeout — also when a custom
transport was explicitly supplied, which is thereby replaced, not kept;
everything else in the configuration is unchanged. -/
theorem with_timeout_always_rebuilds (c : Capture) (t : Nat) :
    (c.with_timeout t).options.timeout = some t ∧
    (c.with_timeout t).client = .built (some t) ∧
    (c.with_timeout t).key = c.key ∧
    (c.with_timeout t).secret = c.secret ∧
    (c.with_timeout t).options.use_edge = c.options.use_edge ∧
    (c.with_timeout t).options.client = c.options.client :=
  ⟨rfl, rfl, rfl, rfl, rfl, rfl⟩

/-- C10: no build operation ever returns `InvalidUrl`: every `build_url`
result is `MissingCredentials`, `MissingUrl`, or `Ok`, and every public
builder delegates to `build_url`. -/
theorem invalid_url_unreachable (c : Capture) (rt : RequestType) (url : String)
    (opts : Option RequestOptions) (sopts : Option ScreenshotOptions)
    (popts : Option PdfOptions) (copts : Option ContentOptions)
    (mopts : Option MetadataOptions) :
    (c.build_url rt url opts = .error .MissingCredentials ∨
     c.build_url rt url opts = .error .MissingUrl ∨
     ∃ s, c.build_url rt url opts = .ok s) ∧
    c.build_url rt url opts ≠ .error .InvalidUrl ∧
    c.build_image_url url opts = c.build_url .Image url opts ∧
    c.build_pdf_url url opts = c.build_url .Pdf url opts ∧
    c.build_content_url url opts = c.build_url .Content url opts ∧
    c.build_metadata_url url opts = c.build_url .Metadata url opts ∧
    c.build_animated_url url opts = c.build_url .Animated url opts ∧
    c.build_screenshot_url url sopts =
      c.build_url .Image url (sopts.map (fun o => o.to_request_options)) ∧
    c.build_pdf_url_structured url popts =
      c.build_url .Pdf url (popts.map (fun o => o.to_request_options)) ∧
    c.build_content_url_structured url copts =
      c.build_url .Content url (copts.map (fun o => o.to_request_options)) ∧
    c.build_metadata_url_structured url mopts =
      c.build_url .Metadata url (mopts.map (fun o => o.to_request_options)) := by
  refine ⟨?_, ?_, rfl, rfl, rfl, rfl, rfl, rfl, rfl, rfl, rfl⟩ <;>
    unfold Capture.build_url <;>
    by_cases h1 : c.key = "" ∨ c.secret = ""
  · rw [if_pos h1]
    exact Or.inl rfl
  · rw [if_neg h1]
    by_cases h2 : url = ""
    · rw [if_pos h2]
      exact Or.inr (Or.inl rfl)
    · rw [if_neg h2]
      exact Or.inr (Or.inr ⟨_, rfl⟩)
  · rw [if_pos h1]
    intro he
    exact CaptureError.noConfusion (Except.error.inj he)
  · rw [if_neg h1]
    by_cases h2 : url = ""
    · rw [if_pos h2]
      intro he
      exact CaptureError.noConfusion (Except.error.inj he)
    · rw [if_neg h2]
      intro he
      exact Except.noConfusion he

/-- The entry list built by `to_query_string` coincides with the spec-side
stringify / drop-empty / encode pipeline. -/
theorem filterMap_spec_eq (opts : RequestOptions) :
    opts.filterMap (fun p =>
      match valueToString p.2 with
      | none => none
      | some v => if v = "" then none
        else some (urlencode p.1 ++ "=" ++ urlencode v)) =
    ((opts.filterMap (fun p => (specStringify p.2).map (fun s => (p.1, s)))).filter
        (fun p => p.2 != "")).map
      (fun p => urlencode p.1 ++ "=" ++ urlencode p.2) := by
  have hfun : (fun p : String × Value => (specStringify p.2).map (fun s => (p.1, s))) =
      (fun p : String × Value => (valueToString p.2).map (fun s => (p.1, s))) :=
    funext (fun p => by rw [specStringify_eq_valueToString])
  rw [hfun]
  induction opts with
  | nil => rfl
  | cons p t ih =>
    obtain ⟨k, v⟩ := p
    simp only [List.filterMap_cons]
    cases hv : valueToString v with
    | none => simpa using ih
    | some s =>
      by_cases hs : s = ""
      · subst hs
        simpa using ih
      · simp [List.filter_cons, hs, ih]

/-- C3: `to_query_string` is exactly the `&`-join of
`encodedKey=encodedValue` over the mapping's entries with booleans as
`true`/`false`, numbers as their literal text, non-scalar and
empty-stringifying entries skipped, and percent-encoding on both sides
(space as `%20`); on `{"full": true, "delay": 3, "format": ""}` it yields
`full=true&delay=3`, containing `full=true` and `delay=3` and never
`format=`, and a space encodes to `%20`, never `+`. -/
theorem query_serialization_spec :
    (∀ opts : RequestOptions, to_query_string opts = specQuery opts) ∧
    to_query_string
        [("full", .bool true), ("delay", .num (.int 3)), ("format", .str "")] =
      "full=true&delay=3" ∧
    "full=true".data <:+: (to_query_string
      [("full", .bool true), ("delay", .num (.int 3)), ("format", .str "")]).data ∧
    "delay=3".data <:+: (to_query_string
      [("full", .bool true), ("delay", .num (.int 3)), ("format", .str "")]).data ∧
    ¬ ("format=".data <:+: (to_query_string
      [("full", .bool true), ("delay", .num (.int 3)), ("format", .str "")]).data) ∧
    urlencode "path with spaces" = "path%20with%20spaces" := by
  refine ⟨?_, by decide, by decide, by decide, by decide, by decide⟩
  intro opts
  unfold to_query_string specQuery
  rw [filterMap_spec_eq]

/-- C8: structured-option conversion is deterministic (equal inputs give
equal mappings) and `additional_options` is merged last, so any entry of a
(duplicate-free) `additional_options` mapping — whether it overrides a
fixed-field wire key or injects a new one — is what the converted mapping
holds at that key, for all four option sets. -/
theorem structured_conversion_override :
    (∀ o : ScreenshotOptions, o.to_request_options = o.to_request_options) ∧
    (∀ o : PdfOptions, o.to_request_options = o.to_request_options) ∧
    (∀ o : ContentOptions, o.to_request_options = o.to_request_options) ∧
    (∀ o : MetadataOptions, o.to_request_options = o.to_request_options) ∧
    (∀ (o : ScreenshotOptions) (add : RequestOptions) (k : String) (v : Value),
      o.additional_options = some add → (add.map Prod.fst).Nodup →
      lookupOpt k add = some v → lookupOpt k o.to_request_options = some v) ∧
    (∀ (o : PdfOptions) (add : RequestOptions) (k : String) (v : Value),
      o.additional_options = some add → (add.map Prod.fst).Nodup →
      lookupOpt k add = some v → lookupOpt k o.to_request_options = some v) ∧
    (∀ (o : ContentOptions) (add : RequestOptions) (k : String) (v : Value),
      o.additional_options = some add → (add.map Prod.fst).Nodup →
      lookupOpt k add = some v → lookupOpt k o.to_request_options = some v) ∧
    (∀ (o : MetadataOptions) (add : RequestOptions) (k : String) (v : Value),
      o.additional_options = some add → (add.map Prod.fst).Nodup →
      lookupOpt k add = some v → lookupOpt k o.to_request_options = some v) := by
  refine ⟨fun _ => rfl, fun _ => rfl, fun _ => rfl, fun _ => rfl,
    ?_, ?_, ?_, ?_⟩
  · intro o add k v hadd hnd hv
    unfold ScreenshotOptions.to_request_options
    rw [hadd]
    exact lookupOpt_foldl_insert_mem add k v hnd hv _
  · intro o add k v hadd hnd hv
    unfold PdfOptions.to_request_options
    rw [hadd]
    exact lookupOpt_foldl_insert_mem add k v hnd hv _
  · intro o add k v hadd hnd hv
    unfold ContentOptions.to_request_options
    rw [hadd]
    exact lookupOpt_foldl_insert_mem add k v hnd hv _
  · intro o add k v hadd hnd hv
    unfold MetadataOptions.to_request_options
    rw [hadd]
    exact lookupOpt_foldl_insert_mem add k v hnd hv _

theorem structured_conversion_override_witness :
    ({ full := some true,
       additional_options := some [("full", .bool false), ("extra", .str "x")] } :
        ScreenshotOptions).additional_options =
      some [("full", .bool false), ("extra", .str "x")] ∧
    ([("full", Value.bool false), ("extra", Value.str "x")].map Prod.fst).Nodup ∧
    lookupOpt "full" [("full", .bool false), ("extra", .str "x")] =
      some (.bool false) ∧
    lookupOpt "full"
      ({ full := some true,
         additional_options := some [("full", .bool false), ("extra", .str "x")] } :
        ScreenshotOptions).to_request_options = some (.bool false) :=
  ⟨rfl, by decide, by decide,
    structured_conversion_override.2.2.2.2.1
      { full := some true,
        additional_options := some [("full", .bool false), ("extra", .str "x")] }
      [("full", .bool false), ("extra", .str "x")] "full" (.bool false)
      rfl (by decide) (by decide)⟩

/-- With no `additional_options`, the `"scaleFactor"` entry of a converted
`ScreenshotOptions` is exactly the image of `scale_factor` under
`Number::from_f64`. -/
theorem screenshot_scaleFactor_lookup (o : ScreenshotOptions)
    (h : o.additional_options = none) :
    lookupOpt "scaleFactor" o.to_request_options =
      (o.scale_factor.bind numberFromF64).map .num := by
  unfold ScreenshotOptions.to_request_options
  rw [h]
  show lookupOpt "scaleFactor" o.fixedOptions = _
  unfold ScreenshotOptions.fixedOptions
  cases hsf : o.scale_factor with
  | none =>
    simp [hsf, optInsert_none, lookupOpt_optInsert_ne, lookupOpt]
  | some f =>
    cases f <;> simp [hsf, numberFromF64, optInsert_none, optInsert_some,
      lookupOpt_optInsert_ne, lookupOpt_insertOpt_self, lookupOpt]

/-- With no `additional_options`, the `"scale"` entry of a converted
`PdfOptions` is exactly the image of `scale` under `Number::from_f64`. -/
theorem pdf_scale_lookup (o : PdfOptions) (h : o.additional_options = none) :
    lookupOpt "scale" o.to_request_options =
      (o.scale.bind numberFromF64).map .num := by
  unfold PdfOptions.to_request_options
  rw [h]
  show lookupOpt "scale" o.fixedOptions = _
  unfold PdfOptions.fixedOptions
  cases hsf : o.scale with
  | none =>
    simp [hsf, optInsert_none, lookupOpt_optInsert_ne, lookupOpt]
  | some f =>
    cases f <;> simp [hsf, numberFromF64, optInsert_none, optInsert_some,
      lookupOpt_optInsert_ne, lookupOpt_insertOpt_self, lookupOpt]

/-- C9: for the floating-point fields (`ScreenshotOptions.scale_factor` ↦
`"scaleFactor"`, `PdfOptions.scale` ↦ `"scale"`), the wire entry is present
if and only if the field is populated with a finite value; NaN and ±∞ are
rejected by omitting the entry, never by an error. -/
theorem float_fields_inserted_iff_finite :
    (∀ o : ScreenshotOptions, o.additional_options = none →
      lookupOpt "scaleFactor" o.to_request_options =
        (o.scale_factor.bind numberFromF64).map .num ∧
      ((∃ jv, lookupOpt "scaleFactor" o.to_request_options = some jv) ↔
        (∃ x, o.scale_factor = some x ∧ x.isFinite = true))) ∧
    (∀ o : PdfOptions, o.additional_options = none →
      lookupOpt "scale" o.to_request_options =
        (o.scale.bind numberFromF64).map .num ∧
      ((∃ jv, lookupOpt "scale" o.to_request_options = some jv) ↔
        (∃ x, o.scale = some x ∧ x.isFinite = true))) := by
  have hiff : ∀ sf : Option F64,
      (∃ jv, (sf.bind numberFromF64).map Value.num = some jv) ↔
        (∃ x, sf = some x ∧ x.isFinite = true) := by
    intro sf
    cases sf with
    | none => simp
    | some f => cases f <;> simp [numberFromF64, F64.isFinite]
  constructor
  · intro o h
    refine ⟨screenshot_scaleFactor_lookup o h, ?_⟩
    rw [screenshot_scaleFactor_lookup o h]
    exact hiff o.scale_factor
  · intro o h
    refine ⟨pdf_scale_lookup o h, ?_⟩
    rw [pdf_scale_lookup o h]
    exact hiff o.scale

theorem float_fields_inserted_iff_finite_witness :
    ({ scale_factor := some (.finite "1.5") } : ScreenshotOptions).additional_options =
      none ∧
    (lookupOpt "scaleFactor"
        ({ scale_factor := some (.finite "1.5") } :
          ScreenshotOptions).to_request_options =
      (({ scale_factor := some (.finite "1.5") } :
          ScreenshotOptions).scale_factor.bind numberFromF64).map .num ∧
    ((∃ jv, lookupOpt "scaleFactor"
        ({ scale_factor := some (.finite "1.5") } :
          ScreenshotOptions).to_request_options = some jv) ↔
      (∃ x, ({ scale_factor := some (.finite "1.5") } :
          ScreenshotOptions).scale_factor = some x ∧ x.isFinite = true))) :=
  ⟨rfl, float_fields_inserted_iff_finite.1
    { scale_factor := some (.finite "1.5") } rfl⟩

end CaptureRust
